import Mathlib

/-!
Verification of the `aghamon` monitoring dashboard (`main.go`) against its
natural-language specification.  The Go source is shallowly embedded below:
pure helpers become Lean functions, the HTTP handlers become functions from
the outcome of the outbound fetch to an abstract response value, and the
builder-style string loops become folds with an explicit accumulator.
-/

namespace Aghamon

/-! ## String utilities (embedding `strings.Contains` / `strings.HasSuffix`) -/

/-- Decide whether `pat` is an initial segment of `l`. -/
def listLeadsWith : List Char → List Char → Bool
  | [], _ => true
  | _ :: _, [] => false
  | a :: as, b :: bs => a == b && listLeadsWith as bs

/-- Decide whether `pat` occurs as a contiguous sublist of `l`. -/
def listHas (pat : List Char) : List Char → Bool
  | [] => listLeadsWith pat []
  | b :: bs => listLeadsWith pat (b :: bs) || listHas pat bs

/-- Embedding of Go `strings.Contains(s, pat)`. -/
def strContains (s pat : String) : Bool :=
  listHas pat.toList s.toList

/-- Embedding of Go `strings.HasSuffix(s, suf)`. -/
def strEndsWith (s suf : String) : Bool :=
  listLeadsWith suf.toList.reverse s.toList.reverse

/-- Concatenation of a list of strings (loop-accumulated output, in order). -/
def concatAll : List String → String
  | [] => ""
  | s :: rest => s ++ concatAll rest

/-! ## Base64 (embedding `encoding/base64` `StdEncoding.EncodeToString`) -/

/-- The RFC 4648 standard base64 alphabet. -/
def base64Alphabet : List Char :=
  "ABCDEFGHIJKLMNOPQRSTUVWXYZabcdefghijklmnopqrstuvwxyz0123456789+/".toList

/-- The alphabet character for a 6-bit group. -/
def b64Char (n : Nat) : Char := base64Alphabet.getD n '?'

/-- Encode a byte sequence (values `< 256`) in standard base64 with `=` padding. -/
def base64Chars : List Nat → List Char
  | [] => []
  | [b1] => [b64Char (b1 / 4), b64Char (b1 % 4 * 16), '=', '=']
  | [b1, b2] => [b64Char (b1 / 4), b64Char (b1 % 4 * 16 + b2 / 16), b64Char (b2 % 16 * 4), '=']
  | b1 :: b2 :: b3 :: rest =>
    b64Char (b1 / 4) :: b64Char (b1 % 4 * 16 + b2 / 16) ::
      b64Char (b2 % 16 * 4 + b3 / 64) :: b64Char (b3 % 64) :: base64Chars rest

/-- Standard base64 encoding of a byte sequence, as a string. -/
def base64Encode (bytes : List Nat) : String := String.mk (base64Chars bytes)

/-- UTF-8 encoding of one character, as byte values (embedding Go `[]byte(string)`). -/
def utf8EncodeCharNat (c : Char) : List Nat :=
  let n := c.toNat
  if n < 128 then [n]
  else if n < 2048 then [192 + n / 64, 128 + n % 64]
  else if n < 65536 then [224 + n / 4096, 128 + n / 64 % 64, 128 + n % 64]
  else [240 + n / 262144, 128 + n / 4096 % 64, 128 + n / 64 % 64, 128 + n % 64]

/-- UTF-8 bytes of a string (embedding Go `[]byte(s)`). -/
def utf8Bytes (s : String) : List Nat :=
  (s.toList.map utf8EncodeCharNat).flatten

/-! ## Data model (`Config`, `Client`, `ClientsResponse`, `StatsResponse`) -/

/-- The `adguard` section of the configuration (`Config.AdGuard` in `main.go`). -/
structure AdGuardConfig where
  serverURL : String
  username : String
  password : String
deriving DecidableEq

/-- Embedding of the `Config` struct of `main.go`. -/
structure Config where
  adGuard : AdGuardConfig
deriving DecidableEq

/-- WHOIS sub-record of a client (`Client.WhoisInfo` in `main.go`). -/
structure WhoisInfo where
  country : String
  orgName : String
  city : String
deriving DecidableEq

/-- Embedding of the `Client` struct of `main.go`. -/
structure Client where
  ip : String
  name : String
  source : String
  whoisInfo : WhoisInfo
deriving DecidableEq

/-- Embedding of the `ClientsResponse` struct of `main.go`. -/
structure ClientsResponse where
  clients : List Client
  autoClients : List Client
  supportedTags : List String
deriving DecidableEq

/-- One `map[string]int` item of a ranked list, as its key/value pairs in Go's
iteration order.  Go randomizes map iteration order, so a multi-entry map is
represented by any of the permutations of its entries. -/
abbrev RankedItem := List (String × Int)

/-- One `map[string]float64` item; float values are modelled as exact rationals. -/
abbrev TimedItem := List (String × Rat)

/-- Embedding of the `StatsResponse` struct of `main.go`. -/
structure StatsResponse where
  timeUnits : String
  topQueriedDomains : List RankedItem
  topClients : List RankedItem
  topBlockedDomains : List RankedItem
  topUpstreamsResponses : List RankedItem
  topUpstreamsAvgTime : List TimedItem
  dnsQueries : List Int
  blockedFiltering : List Int
  numDNSQueries : Int
  numBlockedFiltering : Int
  avgProcessingTime : Rat
deriving DecidableEq

/-! ## Appliance client (`getBasicAuth`, `fetchClients`, `fetchStats`) -/

/-- Embedding of `getBasicAuth` of `main.go`: base64 of `username + ":" + password`. -/
def getBasicAuth (username password : String) : String :=
  base64Encode (utf8Bytes (username ++ ":" ++ password))

/-- An outbound HTTP request as built by `fetchClients` / `fetchStats`. -/
structure HTTPRequest where
  method : String
  url : String
  headers : List (String × String)
deriving DecidableEq

/-- Embedding of `req.Header.Set`: replace the value at a key, or append it. -/
def headerSet (hs : List (String × String)) (k v : String) : List (String × String) :=
  if hs.any (fun p => p.1 == k) then
    hs.map (fun p => if p.1 == k then (k, v) else p)
  else hs ++ [(k, v)]

/-- Lookup of a header value (first match). -/
def headerGet : List (String × String) → String → Option String
  | [], _ => none
  | (k, v) :: rest, name => if k == name then some v else headerGet rest name

/-- The request built by `fetchClients` of `main.go` (URL and the three headers,
set in source order on an initially empty header map). -/
def fetchClientsRequest (config : Config) : HTTPRequest :=
  let url := config.adGuard.serverURL ++ "/control/clients"
  let authHeader := getBasicAuth config.adGuard.username config.adGuard.password
  let hs := headerSet [] "Authorization" ("Basic " ++ authHeader)
  let hs := headerSet hs "Accept" "application/json"
  let hs := headerSet hs "Referer" (config.adGuard.serverURL ++ "/")
  { method := "GET", url := url, headers := hs }

/-- The request built by `fetchStats` of `main.go`. -/
def fetchStatsRequest (config : Config) : HTTPRequest :=
  let url := config.adGuard.serverURL ++ "/control/stats"
  let authHeader := getBasicAuth config.adGuard.username config.adGuard.password
  let hs := headerSet [] "Authorization" ("Basic " ++ authHeader)
  let hs := headerSet hs "Accept" "application/json"
  let hs := headerSet hs "Referer" (config.adGuard.serverURL ++ "/")
  { method := "GET", url := url, headers := hs }

/-! ## View renderer (`generateHTMLTable`, `generateStatsTable`, `generateUpstreamsTable`) -/

/-- The fixed table opening of `generateHTMLTable` (header row for the clients table). -/
def clientsTableHead : String :=
  "<div class=\"table-container\"><div class=\"mobile-table-info\">Swipe horizontally to view all columns</div><table>\n    <thead>\n      <tr>\n        <th>IP Address</th>\n        <th>Name</th>\n        <th>Source</th>\n        <th>Country</th>\n        <th>Organization</th>\n        <th>City</th>\n      </tr>\n    </thead>\n    <tbody>"

/-- The body row appended for one client by the loop of `generateHTMLTable`
(the `fmt.Sprintf` with six `%s` verbs, unescaped). -/
def clientRow (c : Client) : String :=
  "\n      <tr>\n        <td>" ++ c.ip ++ "</td>\n        <td>" ++ c.name ++
    "</td>\n        <td>" ++ c.source ++ "</td>\n        <td>" ++ c.whoisInfo.country ++
    "</td>\n        <td>" ++ c.whoisInfo.orgName ++ "</td>\n        <td>" ++
    c.whoisInfo.city ++ "</td>\n      </tr>"

/-- Embedding of `generateHTMLTable` of `main.go`: a string builder seeded with the
table head, extended once per client by the range loop, then closed. -/
def generateHTMLTable (clients : List Client) : String :=
  let sb := clientsTableHead
  let sb := clients.foldl (fun acc c => acc ++ clientRow c) sb
  sb ++ "</tbody></table></div>"

/-- The fixed table opening of `generateStatsTable` (after the `<h3>` title). -/
def statsTableHead (valueLabel : String) : String :=
  "<div class=\"table-container\"><div class=\"mobile-table-info\">Swipe horizontally to view all columns</div><table>\n    <thead>\n      <tr>\n        <th>#</th>\n        <th>Name</th>\n        <th style=\"text-align: right;\">" ++
    valueLabel ++ "</th>\n      </tr>\n    </thead>\n    <tbody>"

/-- The body row of `generateStatsTable` (`%d`, `%s`, `%d` verbs). -/
def statsRow (idx : Nat) (key : String) (value : Int) : String :=
  "\n        <tr>\n          <td>" ++ toString idx ++ "</td>\n          <td>" ++ key ++
    "</td>\n          <td style=\"text-align: right;\">" ++ toString value ++
    "</td>\n        </tr>"

/-- The indexed loop of `generateStatsTable`: `for i, item := range data` appends one
row from the first key/value pair iterated out of `item` (then `break`s); an item
with no entries appends nothing but still advances `i`. -/
def statsRowsLoop : Nat → String → List RankedItem → String
  | _, acc, [] => acc
  | i, acc, item :: rest =>
    let acc := match item with
      | [] => acc
      | (key, value) :: _ => acc ++ statsRow (i + 1) key value
    statsRowsLoop (i + 1) acc rest

/-- Embedding of `generateStatsTable` of `main.go`. -/
def generateStatsTable (title : String) (data : List RankedItem) (valueLabel : String) : String :=
  let sb := "<h3>" ++ title ++ "</h3>"
  let sb := sb ++ statsTableHead valueLabel
  let sb := statsRowsLoop 0 sb data
  sb ++ "</tbody></table></div>"

/-- Left-pad the decimal digits of `n` with zeros to width 6. -/
def padSix (n : Nat) : String :=
  String.mk (List.replicate (6 - (toString n).length) '0') ++ toString n

/-- Round a rational to the nearest integer, halves up: `⌊q + 1/2⌋`, computed on
the numerator and denominator. -/
def ratRound (q : Rat) : Int := Int.fdiv (2 * q.num + q.den) (2 * q.den)

/-- Modelled: Go's `%.6f` formatting of a float value, over an exact rational
representation of that value (round to six decimal places, then print with
exactly six fractional digits). -/
def formatF6 (q : Rat) : String :=
  let scaled : Int := ratRound (q * 1000000)
  let sign := if scaled < 0 then "-" else ""
  let m := scaled.natAbs
  sign ++ toString (m / 1000000) ++ "." ++ padSix (m % 1000000)

/-- The fixed table opening of `generateUpstreamsTable` (after the `<h3>` title). -/
def upstreamsTableHead (valueLabel : String) : String :=
  "<div class=\"table-container\"><div class=\"mobile-table-info\">Swipe horizontally to view all columns</div><table>\n    <thead>\n      <tr>\n        <th>#</th>\n        <th>Upstream</th>\n        <th style=\"text-align: right;\">" ++
    valueLabel ++ "</th>\n      </tr>\n    </thead>\n    <tbody>"

/-- The body row of `generateUpstreamsTable` (`%d`, `%s`, `%.6f` verbs). -/
def upstreamsRow (idx : Nat) (key : String) (value : Rat) : String :=
  "\n        <tr>\n          <td>" ++ toString idx ++ "</td>\n          <td>" ++ key ++
    "</td>\n          <td style=\"text-align: right;\">" ++ formatF6 value ++
    "</td>\n        </tr>"

/-- The indexed loop of `generateUpstreamsTable`, same shape as `statsRowsLoop`. -/
def upstreamsRowsLoop : Nat → String → List TimedItem → String
  | _, acc, [] => acc
  | i, acc, item :: rest =>
    let acc := match item with
      | [] => acc
      | (key, value) :: _ => acc ++ upstreamsRow (i + 1) key value
    upstreamsRowsLoop (i + 1) acc rest

/-- Embedding of `generateUpstreamsTable` of `main.go`. -/
def generateUpstreamsTable (title : String) (data : List TimedItem) (valueLabel : String) : String :=
  let sb := "<h3>" ++ title ++ "</h3>"
  let sb := sb ++ upstreamsTableHead valueLabel
  let sb := upstreamsRowsLoop 0 sb data
  sb ++ "</tbody></table></div>"

/-- Embedding of `generateClientsContent` of `main.go`. -/
def generateClientsContent (totalClients : Nat) (clientsTable : String) : String :=
  "<div class=\"header-section\">\n    <h1>DNS Clients</h1>\n    <p>Total clients: " ++
    toString totalClients ++ "</p>\n</div>\n" ++ clientsTable

/-- Embedding of `generateStatsContent` of `main.go`. -/
def generateStatsContent (timeUnits : String) (numDNSQueries numBlockedFiltering : Int)
    (avgProcessingTime : Rat) (topDomainsTable topClientsTable topBlockedTable : String) :
    String :=
  "<div class=\"header-section\">\n    <h1>DNS Statistics</h1>\n</div>\n\n<div class=\"summary\">\n    <p><strong>Time Period:</strong> Last 24 " ++
    timeUnits ++ "</p>\n    <p><strong>Total DNS Queries:</strong> " ++
    toString numDNSQueries ++ "</p>\n    <p><strong>Total Blocked Queries:</strong> " ++
    toString numBlockedFiltering ++
    "</p>\n    <p><strong>Average Processing Time:</strong> " ++
    formatF6 avgProcessingTime ++ " seconds</p>\n</div>\n\n" ++
    topDomainsTable ++ "\n" ++ topClientsTable ++ "\n" ++ topBlockedTable

/-- Embedding of `generateUpstreamsContent` of `main.go`. -/
def generateUpstreamsContent (topUpstreamsTable topUpstreamsTimeTable : String) : String :=
  "<div class=\"header-section\">\n    <h1>DNS Upstreams</h1>\n</div>\n\n" ++
    topUpstreamsTable ++ "\n" ++ topUpstreamsTimeTable

/-! ## HTTP handlers (the closures registered in `main`) -/

/-- The observable outcome of a handler: either `c.String(status, body)` or
`c.Render(status, "base.html", {Title, Content})` (the latter abstracted as the
title and content strings handed to the shared page template). -/
inductive HandlerResult where
  | plainText (status : Nat) (body : String)
  | page (status : Nat) (title : String) (content : String)
deriving DecidableEq

/-- Embedding of the `/clients` handler of `main.go`, as a function of the outcome
of `fetchClients` (an error carries the Go error's text). -/
def clientsHandler (fetched : Except String ClientsResponse) : HandlerResult :=
  match fetched with
  | .error err => .plainText 500 ("Error fetching clients: " ++ err)
  | .ok clientsResponse =>
    let allClients := clientsResponse.clients ++ clientsResponse.autoClients
    let htmlTable := generateHTMLTable allClients
    .page 200 "DNS Clients - Aghamon" (generateClientsContent allClients.length htmlTable)

/-- Embedding of the `/stats` handler of `main.go`, as a function of the outcome
of `fetchStats`. -/
def statsHandler (fetched : Except String StatsResponse) : HandlerResult :=
  match fetched with
  | .error err => .plainText 500 ("Error fetching stats: " ++ err)
  | .ok statsResponse =>
    let topDomainsTable := generateStatsTable "Top Queried Domains" statsResponse.topQueriedDomains "Count"
    let topClientsTable := generateStatsTable "Top Clients" statsResponse.topClients "Count"
    let topBlockedTable := generateStatsTable "Top Blocked Domains" statsResponse.topBlockedDomains "Count"
    .page 200 "DNS Statistics - Aghamon"
      (generateStatsContent statsResponse.timeUnits statsResponse.numDNSQueries
        statsResponse.numBlockedFiltering statsResponse.avgProcessingTime
        topDomainsTable topClientsTable topBlockedTable)

/-- Embedding of the `/upstreams` handler of `main.go`, as a function of the outcome
of `fetchStats`. -/
def upstreamsHandler (fetched : Except String StatsResponse) : HandlerResult :=
  match fetched with
  | .error err => .plainText 500 ("Error fetching upstreams: " ++ err)
  | .ok statsResponse =>
    let topUpstreamsTable := generateStatsTable "Top Upstreams by Response Count" statsResponse.topUpstreamsResponses "Count"
    let topUpstreamsTimeTable := generateUpstreamsTable "Top Upstreams by Average Response Time" statsResponse.topUpstreamsAvgTime "Time"
    .page 200 "DNS Upstreams - Aghamon"
      (generateUpstreamsContent topUpstreamsTable topUpstreamsTimeTable)

/-! ## Static asset server (`serveStaticFile`) -/

/-- The response of `serveStaticFile`: `c.String(status, body)` or
`c.Blob(status, contentType, data)`. -/
inductive StaticResult where
  | text (status : Nat) (body : String)
  | blob (status : Nat) (contentType : String) (data : List Nat)
deriving DecidableEq

/-- Assoc-list lookup modelling `embed.FS.ReadFile` over the embedded asset store
(`none` is the read error for a missing file). -/
def lookupStore : List (String × List Nat) → String → Option (List Nat)
  | [], _ => none
  | (k, v) :: rest, name => if k = name then some v else lookupStore rest name

/-- The extension based content-type chain of `serveStaticFile` (default
`application/octet-stream`, overridden by the four `HasSuffix` tests). -/
def contentTypeFor (path : String) : String :=
  if strEndsWith path ".png" then "image/png"
  else if strEndsWith path ".jpg" || strEndsWith path ".jpeg" then "image/jpeg"
  else if strEndsWith path ".css" then "text/css"
  else if strEndsWith path ".js" then "application/javascript"
  else "application/octet-stream"

/-- Embedding of `serveStaticFile` of `main.go`, parametrized by the embedded asset
store: default the empty name to `index.html`, refuse names containing `..`,
then read `assets/` + name and reply 200/404. -/
def serveStaticFile (store : List (String × List Nat)) (file : String) : StaticResult :=
  let path := if file = "" then "index.html" else file
  if strContains path ".." then .text 403 "Forbidden"
  else
    match lookupStore store ("assets/" ++ path) with
    | none => .text 404 "File not found"
    | some data => .blob 200 (contentTypeFor path) data

/-- Stand-in bytes for the embedded logo (the PNG signature; the real bytes are
irrelevant to every claim). -/
def logoBytes : List Nat := [137, 80, 78, 71, 13, 10, 26, 10]

/-- Modelled from the spec: the embedded `assets/` directory of the repository is
not under `src/`; per the spec and README it contains `logo_small.png`. -/
def assetStore : List (String × List Nat) := [("assets/logo_small.png", logoBytes)]

/-! ## Process configuration surface (`main`, `loadConfig`) -/

/-- The listen address passed to `e.Start` by `main`; `main.go` hard-codes
`":8080"` and consults no environment variable, so the process environment
parameter is unused. -/
def listenAddress (_env : List (String × String)) : String := ":8080"

/-- The path `loadConfig` opens; `main.go` hard-codes `"config.yaml"` and
consults no environment variable, so the process environment parameter is
unused. -/
def configOpenPath (_env : List (String × String)) : String := "config.yaml"

/-- A parsed (structurally well-formed) YAML document: scalars and mappings. -/
inductive Yaml where
  | str (s : String)
  | map (entries : List (String × Yaml))

/-- First-match lookup in a YAML mapping. -/
def yamlLookup : List (String × Yaml) → String → Option Yaml
  | [], _ => none
  | (k, v) :: rest, name => if k = name then some v else yamlLookup rest name

/-- Modelled from yaml.v3 decode semantics for a Go `string` field: an absent key
leaves the field at its zero value `""`; a present scalar is taken verbatim; a
mapping where a string is expected is a decode error. -/
def decodeStringField (entries : List (String × Yaml)) (k : String) : Except String String :=
  match yamlLookup entries k with
  | none => .ok ""
  | some (.str s) => .ok s
  | some (.map _) => .error ("cannot unmarshal mapping into string field " ++ k)

/-- Modelled from yaml.v3 decode semantics for the `Config` struct of `main.go`
(`loadConfig` delegates decoding to `yaml.NewDecoder(...).Decode`): an absent
`adguard` key leaves the whole nested struct at its zero value; an absent
string key inside it yields `""`; no further validation is performed. -/
def decodeConfig : Yaml → Except String Config
  | .str _ => .error "cannot unmarshal scalar into Config"
  | .map entries =>
    match yamlLookup entries "adguard" with
    | none => .ok { adGuard := { serverURL := "", username := "", password := "" } }
    | some (.str _) => .error "cannot unmarshal scalar into struct AdGuard"
    | some (.map ag) => do
      let serverURL ← decodeStringField ag "server_url"
      let username ← decodeStringField ag "username"
      let password ← decodeStringField ag "password"
      .ok { adGuard := { serverURL := serverURL, username := username, password := password } }

/-- A YAML document is structurally well-formed for the `Config` shape when it is
a mapping whose `adguard` entry, if present, is a mapping whose `server_url`,
`username` and `password` entries, if present, are scalars. -/
def wellFormedConfigDoc : Yaml → Bool
  | .str _ => false
  | .map entries =>
    match yamlLookup entries "adguard" with
    | none => true
    | some (.str _) => false
    | some (.map ag) =>
      (match yamlLookup ag "server_url" with
        | some (.map _) => false
        | _ => true) &&
      (match yamlLookup ag "username" with
        | some (.map _) => false
        | _ => true) &&
      (match yamlLookup ag "password" with
        | some (.map _) => false
        | _ => true)

/-! ## Specification-side row lists for the ranked tables -/

/-- The rows emitted by `statsRowsLoop` starting at index `i`: one `(index, key,
value)` triple per item that has at least one entry, taken from its first entry. -/
def emittedStatsRowsFrom (i : Nat) : List RankedItem → List (Nat × String × Int)
  | [] => []
  | [] :: rest => emittedStatsRowsFrom (i + 1) rest
  | ((key, value) :: _) :: rest => (i + 1, key, value) :: emittedStatsRowsFrom (i + 1) rest

/-- Render one emitted stats row triple. -/
def statsRowString (r : Nat × String × Int) : String := statsRow r.1 r.2.1 r.2.2

/-- The rows emitted by `upstreamsRowsLoop` starting at index `i`. -/
def emittedUpstreamsRowsFrom (i : Nat) : List TimedItem → List (Nat × String × Rat)
  | [] => []
  | [] :: rest => emittedUpstreamsRowsFrom (i + 1) rest
  | ((key, value) :: _) :: rest => (i + 1, key, value) :: emittedUpstreamsRowsFrom (i + 1) rest

/-- Render one emitted upstreams row triple. -/
def upstreamsRowString (r : Nat × String × Rat) : String := upstreamsRow r.1 r.2.1 r.2.2

/-! ## Helper lemmas -/

theorem foldl_append_rows {α : Type} (row : α → String) :
    ∀ (l : List α) (init : String),
      l.foldl (fun acc c => acc ++ row c) init = init ++ concatAll (l.map row)
  | [], init => by simp [concatAll]
  | c :: cs, init => by
    rw [List.foldl_cons, foldl_append_rows row cs (init ++ row c)]
    simp [concatAll, String.append_assoc]

theorem generateHTMLTable_eq (clients : List Client) :
    generateHTMLTable clients =
      clientsTableHead ++ concatAll (clients.map clientRow) ++ "</tbody></table></div>" := by
  show List.foldl (fun acc c => acc ++ clientRow c) clientsTableHead clients ++
      "</tbody></table></div>" = _
  rw [foldl_append_rows]

theorem statsRowsLoop_eq : ∀ (data : List RankedItem) (i : Nat) (acc : String),
    statsRowsLoop i acc data = acc ++ concatAll ((emittedStatsRowsFrom i data).map statsRowString)
  | [], i, acc => by simp [statsRowsLoop, emittedStatsRowsFrom, concatAll]
  | [] :: rest, i, acc => by
    rw [show statsRowsLoop i acc ([] :: rest) = statsRowsLoop (i + 1) acc rest from rfl,
      statsRowsLoop_eq rest (i + 1) acc]
    rfl
  | ((k, v) :: tl) :: rest, i, acc => by
    rw [show statsRowsLoop i acc (((k, v) :: tl) :: rest) =
        statsRowsLoop (i + 1) (acc ++ statsRow (i + 1) k v) rest from rfl,
      statsRowsLoop_eq rest (i + 1) (acc ++ statsRow (i + 1) k v)]
    simp [emittedStatsRowsFrom, concatAll, statsRowString, String.append_assoc]

theorem generateStatsTable_eq (t v : String) (data : List RankedItem) :
    generateStatsTable t data v =
      "<h3>" ++ t ++ "</h3>" ++ statsTableHead v ++
        concatAll ((emittedStatsRowsFrom 0 data).map statsRowString) ++
        "</tbody></table></div>" := by
  show statsRowsLoop 0 ("<h3>" ++ t ++ "</h3>" ++ statsTableHead v) data ++
      "</tbody></table></div>" = _
  rw [statsRowsLoop_eq]

theorem upstreamsRowsLoop_eq : ∀ (data : List TimedItem) (i : Nat) (acc : String),
    upstreamsRowsLoop i acc data =
      acc ++ concatAll ((emittedUpstreamsRowsFrom i data).map upstreamsRowString)
  | [], i, acc => by simp [upstreamsRowsLoop, emittedUpstreamsRowsFrom, concatAll]
  | [] :: rest, i, acc => by
    rw [show upstreamsRowsLoop i acc ([] :: rest) = upstreamsRowsLoop (i + 1) acc rest from rfl,
      upstreamsRowsLoop_eq rest (i + 1) acc]
    rfl
  | ((k, v) :: tl) :: rest, i, acc => by
    rw [show upstreamsRowsLoop i acc (((k, v) :: tl) :: rest) =
        upstreamsRowsLoop (i + 1) (acc ++ upstreamsRow (i + 1) k v) rest from rfl,
      upstreamsRowsLoop_eq rest (i + 1) (acc ++ upstreamsRow (i + 1) k v)]
    simp [emittedUpstreamsRowsFrom, concatAll, upstreamsRowString, String.append_assoc]

theorem generateUpstreamsTable_eq (t v : String) (data : List TimedItem) :
    generateUpstreamsTable t data v =
      "<h3>" ++ t ++ "</h3>" ++ upstreamsTableHead v ++
        concatAll ((emittedUpstreamsRowsFrom 0 data).map upstreamsRowString) ++
        "</tbody></table></div>" := by
  show upstreamsRowsLoop 0 ("<h3>" ++ t ++ "</h3>" ++ upstreamsTableHead v) data ++
      "</tbody></table></div>" = _
  rw [upstreamsRowsLoop_eq]

theorem emittedStatsRowsFrom_length : ∀ (data : List RankedItem) (i : Nat),
    (emittedStatsRowsFrom i data).length ≤ data.length
  | [], _ => Nat.le_refl _
  | [] :: rest, i => by
    simpa [emittedStatsRowsFrom] using
      Nat.le_succ_of_le (emittedStatsRowsFrom_length rest (i + 1))
  | ((k, v) :: tl) :: rest, i => by
    simpa [emittedStatsRowsFrom] using emittedStatsRowsFrom_length rest (i + 1)

theorem emittedUpstreamsRowsFrom_length : ∀ (data : List TimedItem) (i : Nat),
    (emittedUpstreamsRowsFrom i data).length ≤ data.length
  | [], _ => Nat.le_refl _
  | [] :: rest, i => by
    simpa [emittedUpstreamsRowsFrom] using
      Nat.le_succ_of_le (emittedUpstreamsRowsFrom_length rest (i + 1))
  | ((k, v) :: tl) :: rest, i => by
    simpa [emittedUpstreamsRowsFrom] using emittedUpstreamsRowsFrom_length rest (i + 1)

theorem statsRowsLoop_truncate : ∀ (data : List RankedItem) (i : Nat) (acc : String),
    statsRowsLoop i acc (data.map fun item => item.head?.toList) = statsRowsLoop i acc data
  | [], _, _ => rfl
  | [] :: rest, i, acc => by
    simpa [statsRowsLoop] using statsRowsLoop_truncate rest (i + 1) acc
  | ((k, v) :: tl) :: rest, i, acc => by
    simpa [statsRowsLoop] using statsRowsLoop_truncate rest (i + 1) (acc ++ statsRow (i + 1) k v)

theorem upstreamsRowsLoop_truncate : ∀ (data : List TimedItem) (i : Nat) (acc : String),
    upstreamsRowsLoop i acc (data.map fun item => item.head?.toList) = upstreamsRowsLoop i acc data
  | [], _, _ => rfl
  | [] :: rest, i, acc => by
    simpa [upstreamsRowsLoop] using upstreamsRowsLoop_truncate rest (i + 1) acc
  | ((k, v) :: tl) :: rest, i, acc => by
    simpa [upstreamsRowsLoop] using
      upstreamsRowsLoop_truncate rest (i + 1) (acc ++ upstreamsRow (i + 1) k v)

theorem emittedStatsRowsFrom_indices : ∀ (data : List RankedItem) (i : Nat),
    (∀ item ∈ data, item ≠ []) →
    (emittedStatsRowsFrom i data).map Prod.fst = List.range' (i + 1) data.length
  | [], i, _ => by simp [emittedStatsRowsFrom]
  | [] :: rest, i, h => absurd rfl (h [] (List.mem_cons_self _ _))
  | ((k, v) :: tl) :: rest, i, h => by
    rw [show emittedStatsRowsFrom i (((k, v) :: tl) :: rest) =
        (i + 1, k, v) :: emittedStatsRowsFrom (i + 1) rest from rfl]
    rw [List.map_cons,
      emittedStatsRowsFrom_indices rest (i + 1) (fun it hit => h it (List.mem_cons_of_mem _ hit))]
    simp [List.range'_succ]

theorem emittedUpstreamsRowsFrom_indices : ∀ (data : List TimedItem) (i : Nat),
    (∀ item ∈ data, item ≠ []) →
    (emittedUpstreamsRowsFrom i data).map Prod.fst = List.range' (i + 1) data.length
  | [], i, _ => by simp [emittedUpstreamsRowsFrom]
  | [] :: rest, i, h => absurd rfl (h [] (List.mem_cons_self _ _))
  | ((k, v) :: tl) :: rest, i, h => by
    rw [show emittedUpstreamsRowsFrom i (((k, v) :: tl) :: rest) =
        (i + 1, k, v) :: emittedUpstreamsRowsFrom (i + 1) rest from rfl]
    rw [List.map_cons,
      emittedUpstreamsRowsFrom_indices rest (i + 1)
        (fun it hit => h it (List.mem_cons_of_mem _ hit))]
    simp [List.range'_succ]

theorem perm_short_eq {α : Type} : ∀ (l₁ l₂ : List α), l₁.Perm l₂ → l₁.length ≤ 1 → l₁ = l₂
  | [], l₂, h, _ => ((List.perm_nil.mp h.symm)).symm
  | [a], l₂, h, _ => (List.perm_singleton.mp h.symm).symm
  | _ :: _ :: _, _, _, hl => absurd hl (by simp)

theorem forall₂_perm_short_eq {α : Type} (d₁ d₂ : List (List α))
    (h : List.Forall₂ List.Perm d₁ d₂) (hlen : ∀ i ∈ d₁, i.length ≤ 1) : d₁ = d₂ := by
  induction h with
  | nil => rfl
  | @cons a b as bs hab _ ih =>
    have ha : a = b := perm_short_eq a b hab (hlen a (List.mem_cons_self _ _))
    have hr : as = bs := ih (fun i hi => hlen i (List.mem_cons_of_mem _ hi))
    rw [ha, hr]

/-! ## Claims -/

set_option maxRecDepth 40000

/-- C1: for every requested filename containing the substring `..`,
`serveStaticFile` returns HTTP 403 (Forbidden) — uniformly in the asset store,
so the store is never consulted and it is irrelevant whether the named asset
exists. -/
theorem serveStaticFile_dotdot_forbidden (store : List (String × List Nat)) (file : String)
    (h : strContains file ".." = true) :
    serveStaticFile store file = .text 403 "Forbidden" := by
  have hne : file ≠ "" := by
    intro he
    rw [he] at h
    exact absurd h (by decide)
  simp [serveStaticFile, hne, h]

/-- Witness for C1 at the concrete input `../secret`. -/
theorem serveStaticFile_dotdot_forbidden_witness :
    strContains "../secret" ".." = true ∧
    serveStaticFile assetStore "../secret" = .text 403 "Forbidden" :=
  ⟨by decide, serveStaticFile_dotdot_forbidden assetStore "../secret" (by decide)⟩

/-- C2: on a failing appliance fetch, each of the `/clients`, `/stats` and
`/upstreams` handlers returns (normally, as a total function) an HTTP 500
response whose body contains the text of the underlying error. -/
theorem handlers_fetch_error_500 (err : String) :
    clientsHandler (.error err) = .plainText 500 ("Error fetching clients: " ++ err) ∧
    statsHandler (.error err) = .plainText 500 ("Error fetching stats: " ++ err) ∧
    upstreamsHandler (.error err) = .plainText 500 ("Error fetching upstreams: " ++ err) ∧
    (∃ p q, "Error fetching clients: " ++ err = p ++ err ++ q) ∧
    (∃ p q, "Error fetching stats: " ++ err = p ++ err ++ q) ∧
    (∃ p q, "Error fetching upstreams: " ++ err = p ++ err ++ q) := by
  refine ⟨rfl, rfl, rfl, ⟨"Error fetching clients: ", "", ?_⟩,
    ⟨"Error fetching stats: ", "", ?_⟩, ⟨"Error fetching upstreams: ", "", ?_⟩⟩ <;>
    rw [String.append_empty]

/-- C3: `fetchClients` and `fetchStats` issue GET requests to exactly
`{server_url}/control/clients` and `{server_url}/control/stats`, carrying
`Authorization: Basic base64(username:password)` (standard base64 over the
UTF-8 bytes), `Accept: application/json` and `Referer: {server_url}/`. -/
theorem fetch_requests_contract (config : Config) :
    (fetchClientsRequest config).method = "GET" ∧
    (fetchClientsRequest config).url = config.adGuard.serverURL ++ "/control/clients" ∧
    headerGet (fetchClientsRequest config).headers "Authorization" =
      some ("Basic " ++
        base64Encode (utf8Bytes (config.adGuard.username ++ ":" ++ config.adGuard.password))) ∧
    headerGet (fetchClientsRequest config).headers "Accept" = some "application/json" ∧
    headerGet (fetchClientsRequest config).headers "Referer" =
      some (config.adGuard.serverURL ++ "/") ∧
    (fetchStatsRequest config).method = "GET" ∧
    (fetchStatsRequest config).url = config.adGuard.serverURL ++ "/control/stats" ∧
    headerGet (fetchStatsRequest config).headers "Authorization" =
      some ("Basic " ++
        base64Encode (utf8Bytes (config.adGuard.username ++ ":" ++ config.adGuard.password))) ∧
    headerGet (fetchStatsRequest config).headers "Accept" = some "application/json" ∧
    headerGet (fetchStatsRequest config).headers "Referer" =
      some (config.adGuard.serverURL ++ "/") := by
  refine ⟨rfl, rfl, ?_, ?_, ?_, rfl, rfl, ?_, ?_, ?_⟩ <;>
    simp [fetchClientsRequest, fetchStatsRequest, headerSet, headerGet, getBasicAuth]

/-- C4: the `/clients` page renders its table over the concatenation of
`clients` followed by `auto_clients`: the body is the concatenation of one row
per client in the original input order with no deduplication, and the number
of body rows equals the number of input clients. -/
theorem clients_page_rows (resp : ClientsResponse) :
    clientsHandler (.ok resp) =
      .page 200 "DNS Clients - Aghamon"
        (generateClientsContent (resp.clients.length + resp.autoClients.length)
          (clientsTableHead ++ concatAll ((resp.clients ++ resp.autoClients).map clientRow) ++
            "</tbody></table></div>")) ∧
    ((resp.clients ++ resp.autoClients).map clientRow).length =
      resp.clients.length + resp.autoClients.length := by
  constructor
  · show HandlerResult.page 200 "DNS Clients - Aghamon"
      (generateClientsContent (resp.clients ++ resp.autoClients).length
        (generateHTMLTable (resp.clients ++ resp.autoClients))) = _
    rw [generateHTMLTable_eq, List.length_append]
  · rw [List.length_map, List.length_append]

/-- C5 (counterexample): with an entry-less map item between two single-entry
items, `generateStatsTable` emits two rows whose displayed indices are 1 and 3:
the second emitted row does not display index 2, and no cell of the output
displays index 2 — the claim that the k-th emitted row displays index k fails. -/
theorem ranked_indices_cex :
    emittedStatsRowsFrom 0 [[("a", 1)], [], [("b", 2)]] = [(1, "a", 1), (3, "b", 2)] ∧
    strContains (generateStatsTable "T" [[("a", 1)], [], [("b", 2)]] "Count") "<td>3</td>" = true ∧
    strContains (generateStatsTable "T" [[("a", 1)], [], [("b", 2)]] "Count") "<td>2</td>" = false :=
  ⟨by decide, by decide, by decide⟩

/-- C5 (amended): the row emitted for an item displays one plus that item's
0-based position in the input list; an entry-less item emits no row but still
advances the position.  Consequently, whenever every item is non-empty (in
particular under the single-key invariant), the displayed index column of
`generateStatsTable` / `generateUpstreamsTable` is exactly `[1, ..., N]`, the
k-th emitted row displaying k, regardless of the underlying keys. -/
theorem ranked_indices_amended (t v : String) (data : List RankedItem) (tdata : List TimedItem)
    (hd : ∀ item ∈ data, item ≠ []) (ht : ∀ item ∈ tdata, item ≠ []) :
    (generateStatsTable t data v =
      "<h3>" ++ t ++ "</h3>" ++ statsTableHead v ++
        concatAll ((emittedStatsRowsFrom 0 data).map statsRowString) ++
        "</tbody></table></div>") ∧
    (emittedStatsRowsFrom 0 data).map Prod.fst = List.range' 1 data.length ∧
    (generateUpstreamsTable t tdata v =
      "<h3>" ++ t ++ "</h3>" ++ upstreamsTableHead v ++
        concatAll ((emittedUpstreamsRowsFrom 0 tdata).map upstreamsRowString) ++
        "</tbody></table></div>") ∧
    (emittedUpstreamsRowsFrom 0 tdata).map Prod.fst = List.range' 1 tdata.length :=
  ⟨generateStatsTable_eq t v data, emittedStatsRowsFrom_indices data 0 hd,
    generateUpstreamsTable_eq t v tdata, emittedUpstreamsRowsFrom_indices tdata 0 ht⟩

/-- Witness for the amended C5 at concrete single-entry inputs. -/
theorem ranked_indices_amended_witness :
    (∀ item ∈ [[("a", (1 : Int))], [("b", 2)]], item ≠ []) ∧
    (emittedStatsRowsFrom 0 [[("a", (1 : Int))], [("b", 2)]]).map Prod.fst = List.range' 1 2 :=
  ⟨by decide,
    (ranked_indices_amended "T" "Count" [[("a", 1)], [("b", 2)]] [] (by decide)
      (by simp)).2.1⟩

/-- C6: the ranked-table and upstream-time renderers read only the first
key/value entry of each map item — truncating every item to its first entry
(dropping all additional keys) leaves the output unchanged — and they emit at
most one row per item. -/
theorem ranked_single_entry (t v : String) (data : List RankedItem) (tdata : List TimedItem) :
    generateStatsTable t (data.map fun item => item.head?.toList) v =
      generateStatsTable t data v ∧
    (emittedStatsRowsFrom 0 data).length ≤ data.length ∧
    generateUpstreamsTable t (tdata.map fun item => item.head?.toList) v =
      generateUpstreamsTable t tdata v ∧
    (emittedUpstreamsRowsFrom 0 tdata).length ≤ tdata.length := by
  refine ⟨?_, emittedStatsRowsFrom_length data 0, ?_, emittedUpstreamsRowsFrom_length tdata 0⟩
  · show statsRowsLoop 0 ("<h3>" ++ t ++ "</h3>" ++ statsTableHead v)
        (data.map fun item => item.head?.toList) ++ "</tbody></table></div>" =
      statsRowsLoop 0 ("<h3>" ++ t ++ "</h3>" ++ statsTableHead v) data ++
        "</tbody></table></div>"
    rw [statsRowsLoop_truncate]
  · show upstreamsRowsLoop 0 ("<h3>" ++ t ++ "</h3>" ++ upstreamsTableHead v)
        (tdata.map fun item => item.head?.toList) ++ "</tbody></table></div>" =
      upstreamsRowsLoop 0 ("<h3>" ++ t ++ "</h3>" ++ upstreamsTableHead v) tdata ++
        "</tbody></table></div>"
    rw [upstreamsRowsLoop_truncate]

/-- C7 (counterexample): `generateStatsTable` is not deterministic as a
function of the map contents: one two-entry map item, presented in its two
equally valid Go iteration orders (a permutation of the same key/value set),
yields two different output strings. -/
theorem renderers_deterministic_cex :
    List.Perm [("a", (1 : Int)), ("b", 2)] [("b", (2 : Int)), ("a", 1)] ∧
    generateStatsTable "T" [[("a", (1 : Int)), ("b", 2)]] "Count" ≠
      generateStatsTable "T" [[("b", (2 : Int)), ("a", 1)]] "Count" :=
  ⟨by decide, by decide⟩

/-- C7 (amended): the renderers are pure functions of their inputs, and under
the single-key invariant (every map item has at most one entry) the ranked
renderers are additionally independent of Go's randomized map iteration order:
presenting each item's entries in any order produces the same output string. -/
theorem renderers_deterministic_amended (t v : String)
    (d₁ d₂ : List RankedItem) (u₁ u₂ : List TimedItem)
    (hd : List.Forall₂ List.Perm d₁ d₂) (hd1 : ∀ item ∈ d₁, item.length ≤ 1)
    (hu : List.Forall₂ List.Perm u₁ u₂) (hu1 : ∀ item ∈ u₁, item.length ≤ 1) :
    generateStatsTable t d₁ v = generateStatsTable t d₂ v ∧
    generateUpstreamsTable t u₁ v = generateUpstreamsTable t u₂ v := by
  rw [forall₂_perm_short_eq d₁ d₂ hd hd1, forall₂_perm_short_eq u₁ u₂ hu hu1]
  exact ⟨rfl, rfl⟩

/-- Witness for the amended C7 at concrete single-entry inputs. -/
theorem renderers_deterministic_amended_witness :
    generateStatsTable "T" [[("a", (1 : Int))]] "Count" =
      generateStatsTable "T" [[("a", (1 : Int))]] "Count" ∧
    generateUpstreamsTable "T" [[("u", (1 : Rat))]] "Count" =
      generateUpstreamsTable "T" [[("u", (1 : Rat))]] "Count" :=
  renderers_deterministic_amended "T" "Count" [[("a", 1)]] [[("a", 1)]] [[("u", 1)]] [[("u", 1)]]
    (List.Forall₂.cons (List.Perm.refl _) List.Forall₂.nil) (by decide)
    (List.Forall₂.cons (List.Perm.refl _) List.Forall₂.nil) (by simp)

/-- C8 (code bug): `main.go` consults no environment variable: the listener
address handed to `e.Start` is the constant `":8080"` and `loadConfig` always
opens `"config.yaml"`, even when `PORT` or `CONFIG_PATH` is set in the process
environment — contradicting the repository README's documented environment
variables. -/
theorem env_vars_ignored :
    listenAddress [("PORT", "9090")] = ":8080" ∧
    listenAddress [("PORT", "9090")] ≠ ":9090" ∧
    configOpenPath [("CONFIG_PATH", "/etc/aghamon.yaml")] = "config.yaml" ∧
    configOpenPath [("CONFIG_PATH", "/etc/aghamon.yaml")] ≠ "/etc/aghamon.yaml" :=
  ⟨rfl, by decide, rfl, by decide⟩

/-- C9: a requested filename free of `..` whose effective name (the empty name
defaults to `index.html`) is absent from the asset store yields HTTP 404; the
asset `logo_small.png`, present in the (spec-modelled) store, yields HTTP 200
with content type `image/png`, inferred from the `.png` suffix by the fixed
extension mapping. -/
theorem static_asset_lookup :
    (∀ (store : List (String × List Nat)) (file : String),
      strContains file ".." = false →
      lookupStore store ("assets/" ++ (if file = "" then "index.html" else file)) = none →
      serveStaticFile store file = .text 404 "File not found") ∧
    serveStaticFile assetStore "logo_small.png" = .blob 200 "image/png" logoBytes ∧
    contentTypeFor "logo_small.png" = "image/png" := by
  refine ⟨?_, by decide, by decide⟩
  intro store file h1 h2
  by_cases he : file = ""
  · subst he
    have hc : strContains "index.html" ".." = false := by decide
    have h2l : lookupStore store "assets/index.html" = none := by simpa using h2
    simp [serveStaticFile, hc, h2l]
  · simp only [if_neg he] at h2
    simp [serveStaticFile, he, h1, h2]

/-- Witness for C9's 404 branch at the concrete absent filename `missing.css`. -/
theorem static_asset_lookup_witness :
    strContains "missing.css" ".." = false ∧
    lookupStore assetStore
      ("assets/" ++ (if "missing.css" = "" then "index.html" else "missing.css")) = none ∧
    serveStaticFile assetStore "missing.css" = .text 404 "File not found" :=
  ⟨by decide, by decide, static_asset_lookup.1 assetStore "missing.css" (by decide) (by decide)⟩

/-- C10: decoding a structurally well-formed config document never fails and
validates nothing: an absent `adguard` section decodes to a `Config` of empty
strings, and inside a present `adguard` mapping each absent `server_url`,
`username` or `password` key decodes to the empty string. -/
theorem loadConfig_no_validation (entries : List (String × Yaml))
    (h : wellFormedConfigDoc (.map entries) = true) :
    ∃ cfg : Config, decodeConfig (.map entries) = .ok cfg ∧
      (yamlLookup entries "adguard" = none →
        cfg.adGuard = { serverURL := "", username := "", password := "" }) ∧
      (∀ ag, yamlLookup entries "adguard" = some (.map ag) →
        (yamlLookup ag "server_url" = none → cfg.adGuard.serverURL = "") ∧
        (yamlLookup ag "username" = none → cfg.adGuard.username = "") ∧
        (yamlLookup ag "password" = none → cfg.adGuard.password = "")) := by
  simp only [wellFormedConfigDoc] at h
  cases hag : yamlLookup entries "adguard" with
  | none =>
    refine ⟨{ adGuard := { serverURL := "", username := "", password := "" } }, ?_, fun _ => rfl, ?_⟩
    · simp only [decodeConfig]
      rw [hag]
    · intro ag hag2
      exact Option.noConfusion hag2
  | some y =>
    rw [hag] at h
    cases y with
    | str s => simp at h
    | map ag =>
      simp only [Bool.and_eq_true] at h
      obtain ⟨⟨h1, h2⟩, h3⟩ := h
      have fsu : ∃ s, decodeStringField ag "server_url" = .ok s ∧
          (yamlLookup ag "server_url" = none → s = "") := by
        cases hv : yamlLookup ag "server_url" with
        | none => exact ⟨"", by simp [decodeStringField, hv], fun _ => rfl⟩
        | some y2 =>
          cases y2 with
          | str s => exact ⟨s, by simp [decodeStringField, hv], fun hn => Option.noConfusion hn⟩
          | map m => rw [hv] at h1; simp at h1
      have fun2 : ∃ s, decodeStringField ag "username" = .ok s ∧
          (yamlLookup ag "username" = none → s = "") := by
        cases hv : yamlLookup ag "username" with
        | none => exact ⟨"", by simp [decodeStringField, hv], fun _ => rfl⟩
        | some y2 =>
          cases y2 with
          | str s => exact ⟨s, by simp [decodeStringField, hv], fun hn => Option.noConfusion hn⟩
          | map m => rw [hv] at h2; simp at h2
      have fpw : ∃ s, decodeStringField ag "password" = .ok s ∧
          (yamlLookup ag "password" = none → s = "") := by
        cases hv : yamlLookup ag "password" with
        | none => exact ⟨"", by simp [decodeStringField, hv], fun _ => rfl⟩
        | some y2 =>
          cases y2 with
          | str s => exact ⟨s, by simp [decodeStringField, hv], fun hn => Option.noConfusion hn⟩
          | map m => rw [hv] at h3; simp at h3
      obtain ⟨su, hsu1, hsu2⟩ := fsu
      obtain ⟨un, hun1, hun2⟩ := fun2
      obtain ⟨pw, hpw1, hpw2⟩ := fpw
      refine ⟨{ adGuard := { serverURL := su, username := un, password := pw } }, ?_, ?_, ?_⟩
      · simp only [decodeConfig]
        rw [hag]
        simp only [hsu1, hun1, hpw1]
        rfl
      · intro hn
        exact Option.noConfusion hn
      · intro ag2 hag2
        injection hag2 with hy
        injection hy with he2
        subst he2
        exact ⟨hsu2, hun2, hpw2⟩

/-- Witness for C10: a well-formed document that provides only `username`. -/
theorem loadConfig_no_validation_witness :
    wellFormedConfigDoc (.map [("adguard", Yaml.map [("username", Yaml.str "u")])]) = true ∧
    (∃ cfg : Config,
      decodeConfig (.map [("adguard", Yaml.map [("username", Yaml.str "u")])]) = .ok cfg ∧
      (yamlLookup [("adguard", Yaml.map [("username", Yaml.str "u")])] "adguard" = none →
        cfg.adGuard = { serverURL := "", username := "", password := "" }) ∧
      (∀ ag, yamlLookup [("adguard", Yaml.map [("username", Yaml.str "u")])] "adguard" =
          some (.map ag) →
        (yamlLookup ag "server_url" = none → cfg.adGuard.serverURL = "") ∧
        (yamlLookup ag "username" = none → cfg.adGuard.username = "") ∧
        (yamlLookup ag "password" = none → cfg.adGuard.password = ""))) :=
  ⟨by decide, loadConfig_no_validation [("adguard", Yaml.map [("username", Yaml.str "u")])]
    (by decide)⟩

end Aghamon
